import Mathlib

/-!
Verification development for the BD-OAuth token lifecycle manager
(Beyon-Digital/OAuthManager).  The repository contains three parallel
implementations of the manager:

* `Index` — the plain JavaScript class in src/src/index.js;
* `TsA`   — the first TypeScript class in src/unnamed/part_001 (lines 120-450),
            a near copy of the JS class with `logout`/`login` added;
* `TsB`   — the second TypeScript class in src/unnamed/part_001 (lines 470-681),
            the canonical `OAuthManager` with `saveTokens`/`clearTokens` and
            optional HMAC request signing.

Each method used by the checked properties is embedded as a pure Lean
function.  External collaborators (the key/value storage, the HTTP transport,
the HMAC primitive, the random source) are passed in explicitly: the storage
is a finite string map, a network call is represented by the `HttpReq` record
it issues together with a caller-chosen `FetchOutcome`, and JavaScript
exceptions are an `Except` result.
-/

/-- JavaScript truthiness of a nullable string: `null`/`undefined` and the
empty string are falsy, every other string is truthy. -/
def truthyS : Option String → Bool
  | none => false
  | some s => s ≠ ""

/-- String coercion JavaScript applies when a possibly-undefined value is
used where a string is expected (e.g. `encodeURIComponent(undefined)`
yields `"undefined"`). -/
def optStr : Option String → String
  | none => "undefined"
  | some s => s

/-- Rendering of a possibly-null string as a JSON value, as
`JSON.stringify` does for a field holding `null`. -/
def jsonStrOrNull (v : Option String) : String :=
  match v with
  | none => "null"
  | some s => "\"" ++ s ++ "\""

/-- Rendering `JSON.stringify` applies to a number-or-undefined field read
from a parsed token response and passed to `storage.set` (localStorage
stringifies every value, turning `undefined` into the string
`"undefined"`). -/
def numOrUndef : Option Nat → String
  | none => "undefined"
  | some n => toString n

/-- Escaping of one character inside a JSON string literal, as performed by
`JSON.stringify`. -/
def jsonEscapeChar (c : Char) : String :=
  if c = '"' then "\\\""
  else if c = '\\' then "\\\\"
  else if c = '\n' then "\\n"
  else if c = '\t' then "\\t"
  else if c = '\r' then "\\r"
  else String.mk [c]

/-- Escaping of a whole string for inclusion in a JSON document. -/
def jsonEscape (s : String) : String :=
  String.join (s.toList.map jsonEscapeChar)

/-- A JSON string literal as produced by `JSON.stringify`. -/
def jsonStr (s : String) : String :=
  "\"" ++ jsonEscape s ++ "\""

/-- A JSON object literal with the fields in the given (insertion) order;
each value is already rendered.  `JSON.stringify` preserves the insertion
order of string-keyed fields. -/
def jsonObj (fields : List (String × String)) : String :=
  "\x7b" ++ String.intercalate "," (fields.map fun f => jsonStr f.1 ++ ":" ++ f.2) ++ "\x7d"

/-- UTF-8 bytes of a character, used by percent-encoding. -/
def utf8Bytes (c : Char) : List Nat :=
  let n := c.toNat
  if n < 128 then [n]
  else if n < 2048 then [192 + n / 64, 128 + n % 64]
  else if n < 65536 then [224 + n / 4096, 128 + (n / 64) % 64, 128 + n % 64]
  else [240 + n / 262144, 128 + (n / 4096) % 64, 128 + (n / 64) % 64, 128 + n % 64]

/-- Upper-case hexadecimal digit. -/
def hexDigit (n : Nat) : Char :=
  "0123456789ABCDEF".toList.getD n '0'

/-- Percent-encoding of one byte. -/
def percentByte (b : Nat) : String :=
  String.mk ['%', hexDigit (b / 16 % 16), hexDigit (b % 16)]

/-- Characters the JavaScript `encodeURIComponent` leaves unescaped. -/
def isUnreservedJS (c : Char) : Bool :=
  c.isAlphanum || c ∈ ['-', '_', '.', '!', '~', '*', '\'', '(', ')']

/-- The JavaScript `encodeURIComponent` function. -/
def encodeURIComponent (s : String) : String :=
  String.join (s.toList.map fun c =>
    if isUnreservedJS c then String.mk [c]
    else String.join ((utf8Bytes c).map percentByte))

/-- The `application/x-www-form-urlencoded` body the JS classes build with
`Object.keys(data).map(k => encodeURIComponent(k)+"="+encodeURIComponent(data[k])).join("&")`. -/
def formEncodeBody (fields : List (String × String)) : String :=
  String.intercalate "&" (fields.map fun f =>
    encodeURIComponent f.1 ++ "=" ++ encodeURIComponent f.2)

/-- Decimal digit value of a character. -/
def digitVal (c : Char) : Option Nat :=
  let n := c.toNat
  if 48 ≤ n && n ≤ 57 then some (n - 48) else none

/-- Accumulating decimal parser. -/
def parseAux : List Char → Nat → Option Nat
  | [], acc => some acc
  | c :: t, acc =>
    match digitVal c with
    | some d => parseAux t (acc * 10 + d)
    | none => none

/-- Parse of an all-digit decimal string; any other string yields none. -/
def parseNatS (s : String) : Option Nat :=
  match s.toList with
  | [] => none
  | l => parseAux l 0

/-- The comparison `now < v` JavaScript performs between the numeric clock
and a string read back from storage: the string is coerced to a number, and
a non-numeric string coerces to NaN, for which every comparison is false.
(The stored values of this library are decimal natural numbers.) -/
def jsLtNum (now : Nat) (v : String) : Bool :=
  match parseNatS v with
  | some m => now < m
  | none => false

/-- The key/value storage collaborator (localStorage-backed in the source):
a finite map from string keys to string values. -/
structure Store where
  entries : List (String × String)
deriving DecidableEq

/-- First-match lookup in an association list. -/
def lookupS : List (String × String) → String → Option String
  | [], _ => none
  | p :: t, k => if p.1 == k then some p.2 else lookupS t k

/-- storage.get / localStorage.getItem: the value for a key, or null. -/
def Store.get (st : Store) (k : String) : Option String :=
  lookupS st.entries k

/-- storage.set / localStorage.setItem. -/
def Store.set (st : Store) (k v : String) : Store :=
  ⟨(k, v) :: st.entries.filter fun p => !(p.1 == k)⟩

/-- storage.remove / localStorage.removeItem. -/
def Store.remove (st : Store) (k : String) : Store :=
  ⟨st.entries.filter fun p => !(p.1 == k)⟩

deriving instance DecidableEq for Except

/-- An HTTP request handed to the transport collaborator (`fetch`):
endpoint URL, method, header list in insertion order, and serialized body
(empty for GET). -/
structure HttpReq where
  url : String
  method : String
  headers : List (String × String)
  body : String
deriving DecidableEq

/-- JavaScript exceptions the embedded methods can raise. -/
inductive JsErr where
  /-- An explicitly thrown `new Error(msg)`. -/
  | err (msg : String)
  /-- A ReferenceError raised by reading an undeclared variable. -/
  | referenceError (name : String)
  /-- A rejected `fetch` (transport failure) propagated to the caller. -/
  | networkError
deriving DecidableEq

/-- Result of running one method: the manager state afterwards, the HTTP
requests it handed to the transport (in order), and its returned value or
raised exception. -/
structure OpOut (σ : Type) (α : Type) where
  state : σ
  requests : List HttpReq
  result : Except JsErr α
deriving DecidableEq

/-- The parsed JSON body of a token-endpoint response
(src/unnamed/part_002, `TokenResponse`). -/
structure TokenResponse where
  access_token : String
  id_token : Option String := none
  refresh_token : Option String := none
  expires_in : Option Nat := none
  token_type : Option String := none
deriving DecidableEq

/-- Outcome of a POST to the token endpoint: either the response resolved
and its JSON body parsed as `r`, or the transport failed (`fetch`
rejected). -/
inductive TokenOutcome where
  | resolved (r : TokenResponse)
  | transportError
deriving DecidableEq

/-- Outcome of a POST to the revoke endpoint; the source never reads the
response body or status, so the resolved case carries only the status. -/
inductive RevokeOutcome where
  | resolved (status : Nat)
  | transportError
deriving DecidableEq

/-- Outcome of a GET to the userinfo endpoint: parsed claims (an opaque
mapping of claim name to value) or a transport failure. -/
inductive UserInfoOutcome where
  | resolved (claims : List (String × String))
  | transportError
deriving DecidableEq

/-- External cryptographic collaborator: `e.hmac key data` stands for
Node crypto's hex-encoded HMAC-SHA256 of `data` under `key`
(`crypto.createHmac('sha256', key).update(data).digest('hex')`). -/
structure CryptoExt where
  hmac : String → String → String

/-- The character set of the PKCE verifier generator
(src/src/index.js lines 340-341 and src/unnamed/part_001 lines 430-431):
66 characters, upper- and lower-case letters, digits, and `-._~`. -/
def charset : String :=
  "ABCDEFGHIJKLMNOPQRSTUVWXYZabcdefghijklmnopqrstuvwxyz0123456789-._~"

/-- The same character set as a list of characters. -/
def charsetChars : List Char := charset.toList

/-- generateRandomString (src/src/index.js lines 339-347, identical in
src/unnamed/part_001 lines 429-437).  The loop draws, for each position,
`Math.floor(Math.random() * charset.length)`, an index in 0..65; the random
source is modelled as the stream `rand` of such indices, with `rand i` the
draw of iteration `i`.  In the source the stream comes from `Math.random()`,
a non-cryptographic PRNG. -/
def generateRandomString (rand : Nat → Fin 66) (length : Nat) : String :=
  String.mk ((List.range length).map fun i =>
    charsetChars.get (Fin.cast (by decide : (66 : Nat) = charsetChars.length) (rand i)))

namespace Index

/-- The mutable fields of the `OAuthManager` class in src/src/index.js,
after `init` has run, together with the storage collaborator.  `clientHeader`
is the `Headers` object built once in `init` (line 121) from the access token
held at that moment; it is not rebuilt when the token later changes. -/
structure IState where
  clientID : String
  redirectURI : String
  scope : Option String
  responseType : String
  authorizeURL : String
  tokenURL : String
  revokeURL : String
  refreshURL : String
  infoURL : String
  accessToken : Option String
  refreshToken : Option String
  codeVerifier : Option String
  withPKCE : Bool
  clientHeader : List (String × String)
  store : Store
deriving DecidableEq

/-- isTokenValid (src/src/index.js lines 306-314).  The method reads the
`expires_in` key; when that value is falsy it returns false, and otherwise
it evaluates `now < expiresAt` — but `expiresAt` is an undeclared variable,
so the read raises a ReferenceError (the module is strict-mode code). -/
def isTokenValid (s : IState) (_now : Nat) : Except JsErr Bool :=
  match s.store.get "expires_in" with
  | none => .ok false
  | some v => if v = "" then .ok false else .error (.referenceError "expiresAt")

/-- The query parameters `authorize` (src/src/index.js lines 172-187)
appends to the authorization URL, in order: client_id, redirect_uri,
response_type, then scope only when it is truthy, then — when PKCE is
enabled — code_challenge and code_challenge_method=S256.  `challenge` is the
value `this.sha256(this.codeVerifier)` computed from the freshly generated
verifier; no `state` parameter exists in this class.  The URL itself is the
base `authorizeURL` followed by these pairs in the given order, serialized
by the host `URL` class. -/
def authorizeParams (s : IState) (challenge : String) : List (String × String) :=
  let ps := [("client_id", s.clientID)]
  let ps := ps ++ [("redirect_uri", s.redirectURI)]
  let ps := ps ++ [("response_type", s.responseType)]
  let ps := if truthyS s.scope then ps ++ [("scope", optStr s.scope)] else ps
  let ps := if s.withPKCE then
      ps ++ [("code_challenge", challenge), ("code_challenge_method", "S256")]
    else ps
  ps

/-- getAccessToken (src/src/index.js lines 127-170): POSTs the
form-urlencoded exchange body to the token URL.  On a resolved response the
then-handler stores `expires_in`, `expiry` (computed as
`data.expires_in + new Date().getTime()` — plain addition, no unit
conversion), `access_token`, `refresh_token`, and updates the in-memory
tokens; every error is swallowed by the final `.catch`, so the method never
raises. -/
def getAccessToken (s : IState) (now : Nat) (code : String) (o : TokenOutcome) :
    OpOut IState Unit :=
  let body := formEncodeBody
    [("client_id", s.clientID),
     ("redirect_uri", s.redirectURI),
     ("grant_type", "authorization_code"),
     ("code", code),
     ("code_verifier", optStr s.codeVerifier)]
  let req : HttpReq :=
    ⟨s.tokenURL, "POST",
     [("Accept", "*/*"), ("Content-Type", "application/x-www-form-urlencoded")],
     body⟩
  match o with
  | .transportError => ⟨s, [req], .ok ()⟩
  | .resolved r =>
    let store := s.store.set "expires_in" (numOrUndef r.expires_in)
    let store := store.set "expiry"
      (match r.expires_in with
       | some n => toString (n + now)
       | none => "NaN")
    let store := store.set "access_token" r.access_token
    let store := store.set "refresh_token" (optStr r.refresh_token)
    ⟨{ s with accessToken := some r.access_token,
              refreshToken := r.refresh_token,
              store := store },
     [req], .ok ()⟩

/-- refreshToken (src/src/index.js lines 259-280).  When the access token is
falsy the method first calls `this.authorize()` — passed in here as `auth`,
returning the updated state and the requests that flow issues — and then, in
every case, POSTs the refresh body (with `refresh_token` serialized as
`null` when absent) to the refresh URL using the init-time `clientHeader`.
There is no check that a refresh token exists.  On a resolved response the
then-handler replaces the in-memory and persisted access token; all errors
are swallowed by `.catch`. -/
def refreshToken (auth : IState → IState × List HttpReq) (s : IState)
    (o : TokenOutcome) : OpOut IState Unit :=
  let (s1, effs) := if truthyS s.accessToken then (s, []) else auth s
  let body := jsonObj
    [("client_id", jsonStr s1.clientID),
     ("grant_type", jsonStr "refresh_token"),
     ("refresh_token", jsonStrOrNull s1.refreshToken)]
  let req : HttpReq := ⟨s1.refreshURL, "POST", s1.clientHeader, body⟩
  match o with
  | .transportError => ⟨s1, effs ++ [req], .ok ()⟩
  | .resolved r =>
    ⟨{ s1 with accessToken := some r.access_token,
               store := s1.store.set "access_token" r.access_token },
     effs ++ [req], .ok ()⟩

end Index

namespace TsA

/-- The mutable fields of the first TypeScript `OAuthManager` class in
src/unnamed/part_001 (lines 120-450), after `init`, with the storage
collaborator.  As in the JS class, `clientHeader` is fixed at init time. -/
structure AState where
  clientID : String
  redirectURI : String
  scope : Option String
  responseType : String
  authorizeURL : String
  tokenURL : String
  revokeURL : String
  refreshURL : String
  infoURL : String
  accessToken : Option String
  refreshToken : Option String
  codeVerifier : Option String
  withPKCE : Bool
  clientHeader : List (String × String)
  store : Store
deriving DecidableEq

/-- isTokenValid (src/unnamed/part_001 lines 391-399): reads the
`expires_at` key; a falsy value yields false, otherwise the result is the
coercing comparison `now < expiresAt`. -/
def isTokenValid (st : Store) (now : Nat) : Bool :=
  match st.get "expires_at" with
  | none => false
  | some v => if v = "" then false else jsLtNum now v

/-- revokeToken (src/unnamed/part_001 lines 367-389): throws when no access
token is held; otherwise POSTs the revoke body and, when the response
resolves and parses, the then-handler nulls both in-memory tokens and
removes the `access_token` and `refresh_token` keys.  A transport failure is
swallowed by `.catch`, leaving all state in place. -/
def revokeToken (s : AState) (o : RevokeOutcome) : OpOut AState Unit :=
  if truthyS s.accessToken then
    let body := jsonObj
      [("client_id", jsonStr s.clientID),
       ("token", jsonStr (optStr s.accessToken))]
    let req : HttpReq := ⟨s.revokeURL, "POST", s.clientHeader, body⟩
    match o with
    | .resolved _ =>
      ⟨{ s with accessToken := none, refreshToken := none,
                store := (s.store.remove "access_token").remove "refresh_token" },
       [req], .ok ()⟩
    | .transportError => ⟨s, [req], .ok ()⟩
  else
    ⟨s, [], .error (.err "No access token found")⟩

/-- logout (src/unnamed/part_001 lines 227-233): calls `revokeToken()` —
whose guard throw, if any, propagates and aborts the method — and then
removes the `access_token`, `refresh_token`, `expires_in` and `expires_at`
keys.  The revoke then-handler runs on a later microtask; its removals
commute with these, so it is sequenced through `revokeToken` here. -/
def logout (s : AState) (o : RevokeOutcome) : OpOut AState Unit :=
  match revokeToken s o with
  | ⟨s1, reqs, .error e⟩ => ⟨s1, reqs, .error e⟩
  | ⟨s1, reqs, .ok ()⟩ =>
    ⟨{ s1 with store := ((((s1.store.remove "access_token").remove
          "refresh_token").remove "expires_in").remove "expires_at") },
     reqs, .ok ()⟩

/-- Value returned by `getUserInfo`: the parsed claims, or the
`\x7b error: error \x7d` object the catch branch returns. -/
inductive UIVal where
  | claims (v : List (String × String))
  | errObj
deriving DecidableEq

/-- getUserInfo (src/unnamed/part_001 lines 401-426): throws unless
`isTokenValid()` holds, then throws unless an access token is held, then
GETs the userinfo URL with a bearer token read back from storage; a
transport failure is caught and an error object is returned. -/
def getUserInfo (s : AState) (now : Nat) (o : UserInfoOutcome) : OpOut AState UIVal :=
  if isTokenValid s.store now = false then
    ⟨s, [], .error (.err "No access token found")⟩
  else if !truthyS s.accessToken then
    ⟨s, [], .error (.err "No access token found")⟩
  else
    let req : HttpReq :=
      ⟨s.infoURL, "GET",
       [("Content-Type", "application/json"),
        ("Authorization", "Bearer " ++ optStr (s.store.get "access_token"))],
       ""⟩
    match o with
    | .resolved v => ⟨s, [req], .ok (.claims v)⟩
    | .transportError => ⟨s, [req], .ok .errObj⟩

end TsA

namespace TsB

/-- The fields of the second `OAuthManager` class in src/unnamed/part_001
(lines 470-681): configuration, the in-memory token state, the optional
HMAC secret, and the storage collaborator. -/
structure BState where
  clientId : String
  clientSecret : String
  redirectUri : String
  scope : String
  state : String
  responseType : String
  authUrl : String
  tokenUrl : String
  revokeUrl : String
  userInfoUrl : String
  hmacSecret : Option String
  accessToken : Option String
  refreshToken : Option String
  expiry : Option Nat
  idToken : Option String
  store : Store
deriving DecidableEq

/-- JavaScript `x || null` on a nullable string: an absent or empty string
becomes null. -/
def jsOrNull : Option String → Option String
  | none => none
  | some s => if s = "" then none else some s

/-- saveTokens (src/unnamed/part_001 lines 524-540): replaces the in-memory
token state from the parsed response — `refresh_token || null`,
`expiry = expires_in ? Date.now() + expires_in * 1000 : null`,
`id_token || null` — then writes `access_token` unconditionally and the
other three keys only when their new value is truthy. -/
def saveTokens (s : BState) (r : TokenResponse) (now : Nat) : BState :=
  let accessToken := some r.access_token
  let refreshToken := jsOrNull r.refresh_token
  let expiry : Option Nat :=
    match r.expires_in with
    | some n => if n = 0 then none else some (now + n * 1000)
    | none => none
  let idToken := jsOrNull r.id_token
  let store := s.store.set "access_token" r.access_token
  let store :=
    match refreshToken with
    | some rt => store.set "refresh_token" rt
    | none => store
  let store :=
    match expiry with
    | some e => if e = 0 then store else store.set "expiry" (toString e)
    | none => store
  let store :=
    match idToken with
    | some t => store.set "id_token" t
    | none => store
  { s with accessToken := accessToken, refreshToken := refreshToken,
           expiry := expiry, idToken := idToken, store := store }

/-- clearTokens (src/unnamed/part_001 lines 545-555): nulls the four
in-memory fields and removes the four persisted keys. -/
def clearTokens (s : BState) : BState :=
  { s with accessToken := none, refreshToken := none, expiry := none,
           idToken := none,
           store := (((s.store.remove "access_token").remove
             "refresh_token").remove "expiry").remove "id_token" }

/-- The query parameters getAuthorizationUrl (src/unnamed/part_001 lines
561-570) passes to `URLSearchParams`, in the object-literal order of the
source: response_type, client_id, redirect_uri, scope, state.  The returned
URL is `authUrl ++ "?" ++` their urlencoded serialization in this order;
scope is always present and no PKCE parameter is ever added. -/
def getAuthorizationUrlParams (s : BState) : List (String × String) :=
  [("response_type", s.responseType),
   ("client_id", s.clientId),
   ("redirect_uri", s.redirectUri),
   ("scope", s.scope),
   ("state", s.state)]

/-- The signature headers added to a request body: when an HMAC secret is
configured, the dedicated `X-HMAC-Signature` header carrying the
hex-encoded HMAC-SHA256 of the serialized body (generateHmacSignature,
src/unnamed/part_001 lines 577-582); otherwise nothing. -/
def sigHeaders (e : CryptoExt) (sec : Option String) (body : String) :
    List (String × String) :=
  match sec with
  | some k => [("X-HMAC-Signature", e.hmac k body)]
  | none => []

/-- fetchToken (src/unnamed/part_001 lines 588-610): POSTs the JSON
exchange body — signed when a secret is configured — and saves whatever the
resolved response parses to; a transport failure rejects and propagates. -/
def fetchToken (e : CryptoExt) (s : BState) (code : String) (now : Nat)
    (o : TokenOutcome) : OpOut BState Unit :=
  let body := jsonObj
    [("grant_type", jsonStr "authorization_code"),
     ("code", jsonStr code),
     ("redirect_uri", jsonStr s.redirectUri),
     ("client_id", jsonStr s.clientId),
     ("client_secret", jsonStr s.clientSecret)]
  let req : HttpReq :=
    ⟨s.tokenUrl, "POST",
     ("Content-Type", "application/json") :: sigHeaders e s.hmacSecret body,
     body⟩
  match o with
  | .transportError => ⟨s, [req], .error .networkError⟩
  | .resolved r => ⟨saveTokens s r now, [req], .ok ()⟩

/-- refreshAccessToken (src/unnamed/part_001 lines 615-640): throws
`No refresh token available` when no refresh token is held, before any
request is built; otherwise POSTs the JSON refresh body — signed when a
secret is configured — and saves the resolved response. -/
def refreshAccessToken (e : CryptoExt) (s : BState) (now : Nat)
    (o : TokenOutcome) : OpOut BState Unit :=
  if truthyS s.refreshToken then
    let body := jsonObj
      [("grant_type", jsonStr "refresh_token"),
       ("refresh_token", jsonStr (optStr s.refreshToken)),
       ("client_id", jsonStr s.clientId),
       ("client_secret", jsonStr s.clientSecret)]
    let req : HttpReq :=
      ⟨s.tokenUrl, "POST",
       ("Content-Type", "application/json") :: sigHeaders e s.hmacSecret body,
       body⟩
    match o with
    | .transportError => ⟨s, [req], .error .networkError⟩
    | .resolved r => ⟨saveTokens s r now, [req], .ok ()⟩
  else
    ⟨s, [], .error (.err "No refresh token available")⟩

/-- revokeToken (src/unnamed/part_001 lines 645-662): throws when no access
token is held; otherwise POSTs the JSON revoke body — signed when a secret
is configured — and awaits the response.  When the fetch resolves (with any
HTTP status; the source never inspects it) `clearTokens()` runs; when the
transport fails the rejection propagates and `clearTokens()` is never
reached. -/
def revokeToken (e : CryptoExt) (s : BState) (o : RevokeOutcome) :
    OpOut BState Unit :=
  if truthyS s.accessToken then
    let body := jsonObj [("token", jsonStr (optStr s.accessToken))]
    let req : HttpReq :=
      ⟨s.revokeUrl, "POST",
       ("Content-Type", "application/json") :: sigHeaders e s.hmacSecret body,
       body⟩
    match o with
    | .resolved _ => ⟨clearTokens s, [req], .ok ()⟩
    | .transportError => ⟨s, [req], .error .networkError⟩
  else
    ⟨s, [], .error (.err "No access token available")⟩

/-- fetchUserInfo (src/unnamed/part_001 lines 668-680): throws when no
access token is held — the stored expiry is never consulted — then GETs the
userinfo URL with a bearer header (and, when a secret is configured, an
HMAC signature of the access token itself); a transport failure rejects
and propagates. -/
def fetchUserInfo (e : CryptoExt) (s : BState) (o : UserInfoOutcome) :
    OpOut BState (List (String × String)) :=
  if truthyS s.accessToken then
    let tok := optStr s.accessToken
    let req : HttpReq :=
      ⟨s.userInfoUrl, "GET",
       ("Authorization", "Bearer " ++ tok) :: sigHeaders e s.hmacSecret tok,
       ""⟩
    match o with
    | .resolved v => ⟨s, [req], .ok v⟩
    | .transportError => ⟨s, [req], .error .networkError⟩
  else
    ⟨s, [], .error (.err "No access token available")⟩

end TsB

/-- Modelled from the spec: the validity predicate of section 4.4 — "true
iff expiresAt is present and strictly greater than current time" — stated
over an absolute expiry and a clock, for comparison with the code. -/
def specIsValid (expiresAt : Option Nat) (now : Nat) : Bool :=
  match expiresAt with
  | some e => now < e
  | none => false

/-- A concrete crypto collaborator for closed evaluations. -/
def e0 : CryptoExt := ⟨fun k d => k ++ ":" ++ d⟩

/-- A concrete post-init state of the JS class: empty storage, no tokens. -/
def iBase : Index.IState :=
  { clientID := "cid"
    redirectURI := "https://app.example/cb"
    scope := some "openid"
    responseType := "code"
    authorizeURL := "https://sso.example/o/authorize/"
    tokenURL := "https://sso.example/o/token/"
    revokeURL := "https://sso.example/o/revoke-token/"
    refreshURL := "https://sso.example/o/token/"
    infoURL := "https://sso.example/o/userinfo/"
    accessToken := none
    refreshToken := none
    codeVerifier := none
    withPKCE := true
    clientHeader := [("Content-Type", "application/x-www-form-urlencoded"),
                     ("Authorization", "Bearer null")]
    store := ⟨[]⟩ }

/-- A concrete post-init state of the first TS class: no access token held,
but a stale absolute expiry persisted. -/
def aBase : TsA.AState :=
  { clientID := "cid"
    redirectURI := "https://app.example/cb"
    scope := some "openid"
    responseType := "code"
    authorizeURL := "https://sso.example/o/authorize/"
    tokenURL := "https://sso.example/o/token/"
    revokeURL := "https://sso.example/o/revoke-token/"
    refreshURL := "https://sso.example/o/token/"
    infoURL := "https://sso.example/o/userinfo/"
    accessToken := none
    refreshToken := none
    codeVerifier := none
    withPKCE := true
    clientHeader := [("Content-Type", "application/x-www-form-urlencoded"),
                     ("Authorization", "Bearer null")]
    store := ⟨[("expires_at", "999")]⟩ }

/-- A concrete state of the canonical TS class: fresh, no tokens,
no HMAC secret. -/
def bBase : TsB.BState :=
  { clientId := "cid"
    clientSecret := "sec"
    redirectUri := "https://app.example/cb"
    scope := "openid"
    state := "xyz"
    responseType := "code"
    authUrl := "https://sso.example/o/authorize"
    tokenUrl := "https://sso.example/o/token"
    revokeUrl := "https://sso.example/o/revoke-token"
    userInfoUrl := "https://sso.example/o/userinfo"
    hmacSecret := none
    accessToken := none
    refreshToken := none
    expiry := none
    idToken := none
    store := ⟨[]⟩ }

/-- Store holding a present (truthy) `expires_in` value. -/
def c1Store : Store := ⟨[("expires_in", "9999999")]⟩

/-- A TsB state holding all four tokens, in memory and persisted. -/
def c2State : TsB.BState :=
  { bBase with
    accessToken := some "A", refreshToken := some "R",
    expiry := some 99999, idToken := some "I",
    store := ⟨[("access_token", "A"), ("refresh_token", "R"),
               ("expiry", "99999"), ("id_token", "I")]⟩ }

/-- The mocked exchange response of the claim: access token A, refresh
token R, expires_in 3600 seconds. -/
def r3 : TokenResponse :=
  { access_token := "A", refresh_token := some "R", expires_in := some 3600 }

/-- The JS state at the moment of the exchange: a PKCE verifier is held. -/
def iSt3 : Index.IState := { iBase with codeVerifier := some "ver" }

/-- A JS state holding an access token but no refresh token. -/
def iSt4 : Index.IState := { iBase with accessToken := some "A" }

/-- A TsA state holding an access token, with all four keys persisted. -/
def aSt5 : TsA.AState :=
  { aBase with
    accessToken := some "A", refreshToken := some "R",
    store := ⟨[("access_token", "A"), ("refresh_token", "R"),
               ("expires_in", "3600"), ("expires_at", "999")]⟩ }

/-- A TsB state whose access token is present but whose stored expiry lies
in the past relative to clock 10. -/
def bSt7 : TsB.BState :=
  { bBase with
    accessToken := some "A", expiry := some 5,
    store := ⟨[("access_token", "A"), ("expiry", "5")]⟩ }

/-- A TsB state holding tokens A/R in memory and storage. -/
def bSt8 : TsB.BState :=
  { bBase with
    accessToken := some "A", refreshToken := some "R",
    store := ⟨[("access_token", "A"), ("refresh_token", "R")]⟩ }

/-- The refresh response of the counterexample: a new access token and
expiry but no rotated refresh token. -/
def r8 : TokenResponse := { access_token := "B", expires_in := some 3600 }

/-- A refresh response that does rotate the refresh token. -/
def r8rot : TokenResponse :=
  { access_token := "B", refresh_token := some "R2", expires_in := some 3600 }

/-- Signature discipline of one request: when a secret is configured the
request carries the dedicated header with the HMAC of its own body, and
with no secret configured no such header is present. -/
def checkSig (e : CryptoExt) (sec : Option String) (r : HttpReq) : Bool :=
  match sec with
  | some k => r.headers.contains ("X-HMAC-Signature", e.hmac k r.body)
  | none => !((r.headers.map Prod.fst).contains "X-HMAC-Signature")

theorem lookupS_filter_ne (l : List (String × String)) (k k' : String)
    (h : k' ≠ k) :
    lookupS (l.filter fun p => !(p.1 == k)) k' = lookupS l k' := by
  induction l with
  | nil => rfl
  | cons p t ih =>
    rw [List.filter_cons]
    by_cases hpk : p.1 = k
    · have hb : (!(p.1 == k)) = false := by simp [hpk]
      have h2 : (p.1 == k') = false := by simp [hpk, Ne.symm h]
      rw [hb]
      simp only [Bool.false_eq_true, if_false]
      simp only [lookupS, h2, Bool.false_eq_true, if_false]
      exact ih
    · have hb : (!(p.1 == k)) = true := by simp [hpk]
      rw [hb]
      simp only [if_true]
      by_cases hpk' : p.1 = k'
      · simp [lookupS, hpk']
      · simp only [lookupS, show (p.1 == k') = false by simp [hpk'],
          Bool.false_eq_true, if_false]
        exact ih

theorem lookupS_filter_self (l : List (String × String)) (k : String) :
    lookupS (l.filter fun p => !(p.1 == k)) k = none := by
  induction l with
  | nil => rfl
  | cons p t ih =>
    rw [List.filter_cons]
    by_cases hpk : p.1 = k
    · have hb : (!(p.1 == k)) = false := by simp [hpk]
      rw [hb]
      simpa using ih
    · have hb : (!(p.1 == k)) = true := by simp [hpk]
      rw [hb]
      simp only [if_true]
      simp only [lookupS, show (p.1 == k) = false by simp [hpk],
        Bool.false_eq_true, if_false]
      exact ih

/-- Reading any key after a removal: the removed key reads null, all other
keys are unaffected. -/
theorem Store.get_remove (st : Store) (k k' : String) :
    (st.remove k).get k' = if k' == k then none else st.get k' := by
  by_cases h : k' = k
  · subst h
    simp [Store.remove, Store.get, lookupS_filter_self]
  · simp [Store.remove, Store.get, h, lookupS_filter_ne st.entries k k' h]

/-- Reading any key after a write: the written key reads the new value, all
other keys are unaffected. -/
theorem Store.get_set (st : Store) (k v k' : String) :
    (st.set k v).get k' = if k' == k then some v else st.get k' := by
  by_cases h : k' = k
  · subst h
    simp [Store.set, Store.get, lookupS]
  · simp [Store.set, Store.get, lookupS, show (k == k') = false by simp [Ne.symm h], h,
      lookupS_filter_ne st.entries k k' h]

/-- C1: the claim says `isTokenValid` returns true iff a stored expiry is
present and strictly above the clock, false with no stored expiry, and
never throws.  In src/src/index.js the comparison reads the undeclared
variable `expiresAt`, so whenever the stored `expires_in` is present and
truthy the method raises a ReferenceError instead of returning a boolean;
with nothing stored it does return false. -/
theorem isTokenValid_index_throws_on_stored_expiry :
    Index.isTokenValid { iBase with store := c1Store } 1000 =
      .error (.referenceError "expiresAt") ∧
    ({ iBase with store := c1Store } : Index.IState).store.get "expires_in" =
      some "9999999" ∧
    Index.isTokenValid iBase 1000 = .ok false := by
  decide

/-- C2 counterexample: with an access token held, a revoke whose transport
fails (fetch rejects) leaves every persisted key and the whole in-memory
token state in place — the claim says clearing happens even when the
transport fails. -/
theorem revokeToken_tsb_transport_failure_keeps_state :
    (TsB.revokeToken e0 c2State .transportError).state.store.get "access_token" =
      some "A" ∧
    (TsB.revokeToken e0 c2State .transportError).state.store.get "refresh_token" =
      some "R" ∧
    (TsB.revokeToken e0 c2State .transportError).state.store.get "expiry" =
      some "99999" ∧
    (TsB.revokeToken e0 c2State .transportError).state.store.get "id_token" =
      some "I" ∧
    (TsB.revokeToken e0 c2State .transportError).state.accessToken = some "A" ∧
    (TsB.revokeToken e0 c2State .transportError).result = .error .networkError := by
  decide

/-- C2 (amended): for every state holding a (truthy) access token and every
resolved revoke response — any HTTP status, 500 included, since the source
never inspects the status — `revokeToken` succeeds, clears the four
in-memory fields, and removes all four persisted keys; one revoke request
is issued. -/
theorem revokeToken_tsb_resolved_clears (e : CryptoExt) (s : TsB.BState)
    (h : truthyS s.accessToken = true) (status : Nat) :
    (TsB.revokeToken e s (.resolved status)).result = .ok () ∧
    (TsB.revokeToken e s (.resolved status)).state.accessToken = none ∧
    (TsB.revokeToken e s (.resolved status)).state.refreshToken = none ∧
    (TsB.revokeToken e s (.resolved status)).state.expiry = none ∧
    (TsB.revokeToken e s (.resolved status)).state.idToken = none ∧
    (TsB.revokeToken e s (.resolved status)).state.store.get "access_token" = none ∧
    (TsB.revokeToken e s (.resolved status)).state.store.get "refresh_token" = none ∧
    (TsB.revokeToken e s (.resolved status)).state.store.get "expiry" = none ∧
    (TsB.revokeToken e s (.resolved status)).state.store.get "id_token" = none ∧
    (TsB.revokeToken e s (.resolved status)).requests.length = 1 := by
  simp [TsB.revokeToken, h, TsB.clearTokens, Store.get_remove]

/-- Witness for the amended C2 theorem at a concrete state and a 500
response. -/
theorem revokeToken_tsb_resolved_clears_witness :
    (TsB.revokeToken e0 c2State (.resolved 500)).result = .ok () ∧
    (TsB.revokeToken e0 c2State (.resolved 500)).state.accessToken = none ∧
    (TsB.revokeToken e0 c2State (.resolved 500)).state.refreshToken = none ∧
    (TsB.revokeToken e0 c2State (.resolved 500)).state.expiry = none ∧
    (TsB.revokeToken e0 c2State (.resolved 500)).state.idToken = none ∧
    (TsB.revokeToken e0 c2State (.resolved 500)).state.store.get "access_token" = none ∧
    (TsB.revokeToken e0 c2State (.resolved 500)).state.store.get "refresh_token" = none ∧
    (TsB.revokeToken e0 c2State (.resolved 500)).state.store.get "expiry" = none ∧
    (TsB.revokeToken e0 c2State (.resolved 500)).state.store.get "id_token" = none ∧
    (TsB.revokeToken e0 c2State (.resolved 500)).requests.length = 1 :=
  revokeToken_tsb_resolved_clears e0 c2State (by decide) 500

/-- C3: evaluation of src/src/index.js getAccessToken at the claim input,
at clock 1000000 ms.  The access token, refresh token, expires_in and
expiry keys are all persisted, but the stored expiry is
`expires_in + now = 1003600` — the seconds value added to the millisecond
clock with no conversion — not the claimed `now + expires_in*1000 =
4600000`.  The canonical saveTokens (src/unnamed/part_001 line 527) does
compute `now + expires_in*1000` on the same input. -/
theorem getAccessToken_index_expiry_not_scaled :
    (Index.getAccessToken iSt3 1000000 "C" (.resolved r3)).state.store.get "expiry" =
      some "1003600" ∧
    (Index.getAccessToken iSt3 1000000 "C" (.resolved r3)).state.store.get "access_token" =
      some "A" ∧
    (Index.getAccessToken iSt3 1000000 "C" (.resolved r3)).state.store.get "refresh_token" =
      some "R" ∧
    (Index.getAccessToken iSt3 1000000 "C" (.resolved r3)).state.store.get "expires_in" =
      some "3600" ∧
    1000000 + 3600 * 1000 = 4600000 ∧
    some "1003600" ≠ some "4600000" ∧
    (TsB.saveTokens bBase r3 1000000).expiry = some 4600000 ∧
    (TsB.saveTokens bBase r3 1000000).store.get "expiry" = some "4600000" := by
  decide

/-- C4 counterexample: src/src/index.js refreshToken, called in a state
with no refresh token held, raises nothing (every failure is swallowed) and
still issues the refresh POST — with `refresh_token: null` in its JSON body
— where the claim requires a NoRefreshToken failure and no network
request.  (The authorize branch is not taken here since an access token is
held, so the `auth` argument is irrelevant.) -/
theorem refreshToken_index_no_guard_issues_request :
    iSt4.refreshToken = none ∧
    (Index.refreshToken (fun s => (s, [])) iSt4 .transportError).requests ≠ [] ∧
    (Index.refreshToken (fun s => (s, [])) iSt4 .transportError).result = .ok () ∧
    (Index.refreshToken (fun s => (s, [])) iSt4 .transportError).requests.map
      HttpReq.body =
      ["\x7b\"client_id\":\"cid\",\"grant_type\":\"refresh_token\",\"refresh_token\":null\x7d"] := by
  decide

/-- C4 (amended): the canonical refresh, src/unnamed/part_001
refreshAccessToken, called with no refresh token held fails with the
NoRefreshToken error (`No refresh token available`), issues no network
request, and leaves the state unchanged.  The legacy src/src/index.js
refreshToken has no such guard. -/
theorem refreshAccessToken_tsb_requires_refresh_token (e : CryptoExt)
    (s : TsB.BState) (h : s.refreshToken = none) (now : Nat) (o : TokenOutcome) :
    TsB.refreshAccessToken e s now o =
      ⟨s, [], .error (.err "No refresh token available")⟩ := by
  simp [TsB.refreshAccessToken, h, truthyS]

/-- Witness for the amended C4 theorem at a concrete fresh state. -/
theorem refreshAccessToken_tsb_requires_refresh_token_witness :
    TsB.refreshAccessToken e0 bBase 0 .transportError =
      ⟨bBase, [], .error (.err "No refresh token available")⟩ :=
  refreshAccessToken_tsb_requires_refresh_token e0 bBase rfl 0 .transportError

/-- C5 counterexample: logout in a state with no access token held.  The
synchronous `revokeToken()` guard throw propagates out of `logout`, so none
of the four removals runs: the stale `expires_at` key is still present
afterwards and no revoke request was issued — the claim says the removals
happen unconditionally in every state, including this one. -/
theorem logout_tsa_throws_without_access_token :
    aBase.accessToken = none ∧
    (TsA.logout aBase (.resolved 200)).result = .error (.err "No access token found") ∧
    (TsA.logout aBase (.resolved 200)).state.store.get "expires_at" = some "999" ∧
    (TsA.logout aBase (.resolved 200)).requests = [] := by
  decide

/-- C5 (amended): in every state holding a (truthy) access token, logout
issues the revoke request and removes all four persisted keys —
access_token, refresh_token, expires_in, expires_at — regardless of the
revoke outcome (resolved with any status, or transport failure); with no
access token held, revokeToken throws and logout removes nothing. -/
theorem logout_tsa_clears_when_access_token_held (s : TsA.AState)
    (h : truthyS s.accessToken = true) (o : RevokeOutcome) :
    (TsA.logout s o).result = .ok () ∧
    (TsA.logout s o).state.store.get "access_token" = none ∧
    (TsA.logout s o).state.store.get "refresh_token" = none ∧
    (TsA.logout s o).state.store.get "expires_in" = none ∧
    (TsA.logout s o).state.store.get "expires_at" = none ∧
    (TsA.logout s o).requests.length = 1 := by
  cases o <;> simp [TsA.logout, TsA.revokeToken, h, Store.get_remove]

/-- Witness for the amended C5 theorem at a concrete state and a transport
failure. -/
theorem logout_tsa_clears_when_access_token_held_witness :
    (TsA.logout aSt5 .transportError).result = .ok () ∧
    (TsA.logout aSt5 .transportError).state.store.get "access_token" = none ∧
    (TsA.logout aSt5 .transportError).state.store.get "refresh_token" = none ∧
    (TsA.logout aSt5 .transportError).state.store.get "expires_in" = none ∧
    (TsA.logout aSt5 .transportError).state.store.get "expires_at" = none ∧
    (TsA.logout aSt5 .transportError).requests.length = 1 :=
  logout_tsa_clears_when_access_token_held aSt5 (by decide) .transportError

/-- C6 counterexample: the canonical getAuthorizationUrl emits the query
parameters in the order response_type, client_id, redirect_uri, scope,
state — not the claimed order client_id, redirect_uri, response_type,
scope, state. -/
theorem getAuthorizationUrl_tsb_param_order_differs :
    (TsB.getAuthorizationUrlParams bBase).map Prod.fst =
      ["response_type", "client_id", "redirect_uri", "scope", "state"] ∧
    (TsB.getAuthorizationUrlParams bBase).map Prod.fst ≠
      ["client_id", "redirect_uri", "response_type", "scope", "state"] := by
  decide

/-- C6 (amended): both URL builders are deterministic functions of the
configuration (and, for the JS class, of the PKCE challenge), but neither
emits the claimed parameter order: src/src/index.js authorize appends
client_id, redirect_uri, response_type, scope (only when truthy), then —
when PKCE is enabled — code_challenge followed by code_challenge_method=S256,
and never a state parameter; the canonical getAuthorizationUrl emits
response_type, client_id, redirect_uri, scope, state, with scope always
present and no PKCE parameters. -/
theorem authorization_url_parameter_order (s : Index.IState) (ch : String)
    (t : TsB.BState) :
    (Index.authorizeParams s ch).map Prod.fst =
      (["client_id", "redirect_uri", "response_type"] ++
        (if truthyS s.scope then ["scope"] else []) ++
        (if s.withPKCE then ["code_challenge", "code_challenge_method"] else [])) ∧
    "state" ∉ (Index.authorizeParams s ch).map Prod.fst ∧
    (TsB.getAuthorizationUrlParams t).map Prod.fst =
      ["response_type", "client_id", "redirect_uri", "scope", "state"] := by
  refine ⟨?_, ?_, rfl⟩ <;>
    rcases hsc : truthyS s.scope <;> rcases hpk : s.withPKCE <;>
      simp [Index.authorizeParams, hsc, hpk]

/-- C7 counterexample: at clock 10 the state bSt7 is invalid in the sense
of the spec validity predicate, yet the canonical fetchUserInfo — which
never consults the expiry — issues the userinfo GET and returns the parsed
claims instead of failing with NoValidToken. -/
theorem fetchUserInfo_tsb_ignores_validity :
    specIsValid bSt7.expiry 10 = false ∧
    (TsB.fetchUserInfo e0 bSt7 (.resolved [("sub", "u1")])).requests ≠ [] ∧
    (TsB.fetchUserInfo e0 bSt7 (.resolved [("sub", "u1")])).result =
      .ok [("sub", "u1")] := by
  decide

/-- C7 (amended): only the first TS class guards the userinfo fetch on
validity: whenever its `isTokenValid()` is false, getUserInfo throws (with
the source message `No access token found`) before any request is built,
leaving the state unchanged and issuing no network request.  The
src/src/index.js getUserInfo and the canonical fetchUserInfo check only
that an access token is present. -/
theorem getUserInfo_tsa_requires_valid_token (s : TsA.AState) (now : Nat)
    (o : UserInfoOutcome) (h : TsA.isTokenValid s.store now = false) :
    TsA.getUserInfo s now o = ⟨s, [], .error (.err "No access token found")⟩ := by
  simp [TsA.getUserInfo, h]

/-- Witness for the amended C7 theorem: the stored expiry 999 lies below
clock 1000, so the guard fires. -/
theorem getUserInfo_tsa_requires_valid_token_witness :
    TsA.getUserInfo aBase 1000 (.resolved [("sub", "u1")]) =
      ⟨aBase, [], .error (.err "No access token found")⟩ :=
  getUserInfo_tsa_requires_valid_token aBase 1000 (.resolved [("sub", "u1")])
    (by decide)

theorem saveTokens_accessToken (s : TsB.BState) (r : TokenResponse) (now : Nat) :
    (TsB.saveTokens s r now).accessToken = some r.access_token := by
  simp [TsB.saveTokens]

theorem saveTokens_refreshToken (s : TsB.BState) (r : TokenResponse) (now : Nat) :
    (TsB.saveTokens s r now).refreshToken = TsB.jsOrNull r.refresh_token := by
  simp [TsB.saveTokens]

theorem saveTokens_expiry (s : TsB.BState) (r : TokenResponse) (now : Nat) :
    (TsB.saveTokens s r now).expiry =
      (match r.expires_in with
       | some n => if n = 0 then none else some (now + n * 1000)
       | none => none) := by
  simp [TsB.saveTokens]

theorem saveTokens_get_refresh (s : TsB.BState) (r : TokenResponse) (now : Nat) :
    (TsB.saveTokens s r now).store.get "refresh_token" =
      (match TsB.jsOrNull r.refresh_token with
       | some rt => some rt
       | none => s.store.get "refresh_token") := by
  rcases hr : r.refresh_token with _ | rt
  all_goals rcases hi : r.id_token with _ | it
  all_goals rcases he : r.expires_in with _ | n
  all_goals simp only [TsB.saveTokens, TsB.jsOrNull, hr, hi, he]
  all_goals first
    | (split_ifs <;> simp_all [Store.get_set])
    | simp [Store.get_set]

/-- C8 counterexample: a successful refresh whose response carries no
refresh_token sets the in-memory refresh token to null (saveTokens line
526: `data.refresh_token || null`) instead of preserving the previously
held "R"; only the persisted copy survives. -/
theorem refreshAccessToken_tsb_nulls_memory_refresh_token :
    bSt8.refreshToken = some "R" ∧
    (TsB.refreshAccessToken e0 bSt8 50 (.resolved r8)).result = .ok () ∧
    (TsB.refreshAccessToken e0 bSt8 50 (.resolved r8)).state.refreshToken = none ∧
    (TsB.refreshAccessToken e0 bSt8 50 (.resolved r8)).state.store.get
      "refresh_token" = some "R" := by
  decide

/-- C8 (amended): a successful refresh updates the access token and — when
the response carries a nonzero expires_in — the expiry to now +
expires_in*1000; when the response carries no refresh_token the persisted
refresh_token key is unchanged but the in-memory refresh token is reset to
null rather than preserved; when the server rotates, both the in-memory and
the persisted refresh token become the new value. -/
theorem refreshAccessToken_tsb_rotation (e : CryptoExt) (s : TsB.BState)
    (rt : String) (h : s.refreshToken = some rt) (hrt : rt ≠ "")
    (r : TokenResponse) (now : Nat) :
    (TsB.refreshAccessToken e s now (.resolved r)).result = .ok () ∧
    (TsB.refreshAccessToken e s now (.resolved r)).state.accessToken =
      some r.access_token ∧
    (∀ n, r.expires_in = some n → n ≠ 0 →
      (TsB.refreshAccessToken e s now (.resolved r)).state.expiry =
        some (now + n * 1000)) ∧
    (r.refresh_token = none →
      (TsB.refreshAccessToken e s now (.resolved r)).state.refreshToken = none ∧
      (TsB.refreshAccessToken e s now (.resolved r)).state.store.get
        "refresh_token" = s.store.get "refresh_token") ∧
    (∀ nrt, r.refresh_token = some nrt → nrt ≠ "" →
      (TsB.refreshAccessToken e s now (.resolved r)).state.refreshToken =
        some nrt ∧
      (TsB.refreshAccessToken e s now (.resolved r)).state.store.get
        "refresh_token" = some nrt) := by
  have hg : truthyS s.refreshToken = true := by simp [h, truthyS, hrt]
  have hstate : (TsB.refreshAccessToken e s now (.resolved r)).state =
      TsB.saveTokens s r now := by
    simp [TsB.refreshAccessToken, hg]
  have hres : (TsB.refreshAccessToken e s now (.resolved r)).result = .ok () := by
    simp [TsB.refreshAccessToken, hg]
  refine ⟨hres, ?_, ?_, ?_, ?_⟩
  · rw [hstate]
    exact saveTokens_accessToken s r now
  · intro n hn hn0
    rw [hstate, saveTokens_expiry, hn]
    simp [hn0]
  · intro hnone
    constructor
    · rw [hstate, saveTokens_refreshToken, hnone]
      rfl
    · rw [hstate, saveTokens_get_refresh, hnone]
      rfl
  · intro nrt hsome hne
    constructor
    · rw [hstate, saveTokens_refreshToken, hsome]
      simp [TsB.jsOrNull, hne]
    · rw [hstate, saveTokens_get_refresh, hsome]
      simp [TsB.jsOrNull, hne]

/-- Witness for the amended C8 theorem at concrete states: the
non-rotating response r8 and the rotating response r8rot. -/
theorem refreshAccessToken_tsb_rotation_witness :
    (TsB.refreshAccessToken e0 bSt8 50 (.resolved r8)).state.accessToken =
      some "B" ∧
    (TsB.refreshAccessToken e0 bSt8 50 (.resolved r8)).state.expiry =
      some 3600050 ∧
    (TsB.refreshAccessToken e0 bSt8 50 (.resolved r8)).state.store.get
      "refresh_token" = bSt8.store.get "refresh_token" ∧
    (TsB.refreshAccessToken e0 bSt8 50 (.resolved r8rot)).state.refreshToken =
      some "R2" ∧
    (TsB.refreshAccessToken e0 bSt8 50 (.resolved r8rot)).state.store.get
      "refresh_token" = some "R2" := by
  refine ⟨?_, ?_, ?_, ?_, ?_⟩
  · exact (refreshAccessToken_tsb_rotation e0 bSt8 "R" rfl (by decide) r8 50).2.1
  · exact (refreshAccessToken_tsb_rotation e0 bSt8 "R" rfl (by decide) r8 50).2.2.1
      3600 rfl (by decide)
  · exact ((refreshAccessToken_tsb_rotation e0 bSt8 "R" rfl (by decide) r8 50).2.2.2.1
      rfl).2
  · exact ((refreshAccessToken_tsb_rotation e0 bSt8 "R" rfl (by decide) r8rot
      50).2.2.2.2 "R2" rfl (by decide)).1
  · exact ((refreshAccessToken_tsb_rotation e0 bSt8 "R" rfl (by decide) r8rot
      50).2.2.2.2 "R2" rfl (by decide)).2

/-- C9: the functional half of the claim holds — for every index stream and
every requested length, generateRandomString returns exactly that many
characters, each drawn from the 66-character unreserved set
`[A-Za-z0-9-._~]`.  The random source, however, is `Math.random()`
(src/src/index.js line 344), a non-cryptographic PRNG, so the secure-source
half of the claim fails on the code. -/
theorem generateRandomString_length_and_charset (rand : Nat → Fin 66)
    (len : Nat) :
    (generateRandomString rand len).length = len ∧
    ((generateRandomString rand len).toList.all fun c =>
      charsetChars.contains c) = true := by
  constructor
  · show ((List.range len).map _).length = len
    simp
  · rw [List.all_eq_true]
    intro c hc
    rw [show (generateRandomString rand len).toList =
        (List.range len).map (fun i =>
          charsetChars.get (Fin.cast (by decide : (66 : Nat) = charsetChars.length) (rand i)))
      from rfl] at hc
    rw [List.mem_map] at hc
    obtain ⟨i, _, rfl⟩ := hc
    exact List.elem_eq_true_of_mem (List.mem_iff_get.mpr ⟨_, rfl⟩)

/-- C10: every request issued by the three exchange operations of the
canonical class — code exchange (fetchToken), refresh (refreshAccessToken)
and revoke (revokeToken) — carries, exactly when an HMAC secret is
configured, the `X-HMAC-Signature` header holding the hex-encoded
HMAC-SHA256 of the exact serialized body of that request; with no secret
configured, no signature header is sent. -/
theorem exchange_requests_signed_iff_secret (e : CryptoExt) (s : TsB.BState)
    (code : String) (now : Nat) (o1 o2 : TokenOutcome) (o3 : RevokeOutcome) :
    ((TsB.fetchToken e s code now o1).requests.all
      (checkSig e s.hmacSecret)) = true ∧
    ((TsB.refreshAccessToken e s now o2).requests.all
      (checkSig e s.hmacSecret)) = true ∧
    ((TsB.revokeToken e s o3).requests.all
      (checkSig e s.hmacSecret)) = true := by
  refine ⟨?_, ?_, ?_⟩
  · rcases hsec : s.hmacSecret with _ | k <;> cases o1 <;>
      simp [TsB.fetchToken, TsB.sigHeaders, hsec, checkSig, List.contains]
  · rcases hsec : s.hmacSecret with _ | k <;> cases o2 <;>
      rcases hg : truthyS s.refreshToken <;>
        simp [TsB.refreshAccessToken, TsB.sigHeaders, hsec, hg, checkSig,
          List.contains]
  · rcases hsec : s.hmacSecret with _ | k <;> cases o3 <;>
      rcases hg : truthyS s.accessToken <;>
        simp [TsB.revokeToken, TsB.sigHeaders, hsec, hg, checkSig,
          List.contains]
